import Mathlib

/-!
Shallow embedding of `hyrox_istanbul.py`, a one-shot batch utility that
extracts an embedded `__NEXT_DATA__` JSON blob from an HTML page, filters
and aggregates ticket-availability records, and writes the result to a
date-named file.

Modelling conventions:
* Python/JSON values are modelled by the inductive `Json` below.  JSON
  numbers are modelled as integers only (the page data uses integer stock
  counts; fractional or exponent number literals are outside the model and
  are rejected by the embedded JSON parser).
* Python dictionaries are modelled as insertion-ordered association lists
  (`dGet` / `dUpdate` mirror `dict.get` and `dict.__setitem__`, which keeps
  the originally stored key and its position on overwrite).
* Fallible Python code (attribute errors, `int()` conversion failures,
  iteration over non-lists, the two `ValueError`s raised by
  `extract_next_data`) is modelled with `Except PyErr`.
* `str.strip` / `str.upper` are modelled character-wise; `Char.toUpper`
  only upcases ASCII letters, which covers the ASCII exclusion keywords
  the program compares against.
-/

/-- Values of the JSON data model (and of the Python objects obtained from
`json.loads`): null, booleans, integers, strings, arrays and objects.
Objects keep their key/value pairs in insertion order, like Python dicts. -/
inductive Json where
  | null : Json
  | bool (b : Bool) : Json
  | int (n : Int) : Json
  | str (s : String) : Json
  | arr (xs : List Json) : Json
  | obj (kvs : List (String × Json)) : Json
  deriving Repr

mutual

/-- Structural equality test on `Json` values. -/
def jeq : Json → Json → Bool
  | .null, .null => true
  | .bool a, .bool b => a == b
  | .int a, .int b => a == b
  | .str a, .str b => a == b
  | .arr a, .arr b => jeqList a b
  | .obj a, .obj b => jeqObj a b
  | _, _ => false

/-- Structural equality test on lists of `Json` values. -/
def jeqList : List Json → List Json → Bool
  | [], [] => true
  | x :: xs, y :: ys => jeq x y && jeqList xs ys
  | _, _ => false

/-- Structural equality test on key/value lists. -/
def jeqObj : List (String × Json) → List (String × Json) → Bool
  | [], [] => true
  | (k, v) :: xs, (k', v') :: ys => k == k' && jeq v v' && jeqObj xs ys
  | _, _ => false

end

mutual

theorem jeq_iff : ∀ a b : Json, jeq a b = true ↔ a = b
  | .null, b => by cases b <;> simp [jeq]
  | .bool a, b => by cases b <;> simp [jeq]
  | .int a, b => by cases b <;> simp [jeq]
  | .str a, b => by cases b <;> simp [jeq]
  | .arr xs, b => by
      cases b <;> simp [jeq]
      exact jeqList_iff xs _
  | .obj kvs, b => by
      cases b <;> simp [jeq]
      exact jeqObj_iff kvs _

theorem jeqList_iff : ∀ a b : List Json, jeqList a b = true ↔ a = b
  | [], b => by cases b <;> simp [jeqList]
  | x :: xs, b => by
      cases b <;> simp [jeqList]
      rw [jeq_iff x _, jeqList_iff xs _]

theorem jeqObj_iff : ∀ a b : List (String × Json), jeqObj a b = true ↔ a = b
  | [], b => by cases b <;> simp [jeqObj]
  | (k, v) :: xs, b => by
      cases b with
      | nil => simp [jeqObj]
      | cons hd tl =>
        obtain ⟨k', v'⟩ := hd
        simp only [jeqObj, Bool.and_eq_true, beq_iff_eq]
        rw [jeq_iff v _, jeqObj_iff xs _]
        simp [and_assoc]

end

instance : DecidableEq Json := fun a b => decidable_of_iff _ (jeq_iff a b)

/-- Lookup in an association-list dictionary; returns the value of the first
matching key, mirroring `dict.get(key)` (which returns `None`, i.e. `none`
here, when the key is absent). -/
def dGet {κ ν : Type} [DecidableEq κ] : List (κ × ν) → κ → Option ν
  | [], _ => none
  | (k, v) :: rest, key => if key = k then some v else dGet rest key

/-- Store a value in an association-list dictionary, mirroring
`d[key] = val`: the value of the first matching key is replaced (the stored
key object and its position are kept, as in CPython dicts); if the key is
absent the pair is appended at the end (insertion order). -/
def dUpdate {κ ν : Type} [DecidableEq κ] : List (κ × ν) → κ → ν → List (κ × ν)
  | [], key, val => [(key, val)]
  | (k, v) :: rest, key, val =>
      if key = k then (k, val) :: rest else (k, v) :: dUpdate rest key val

theorem dGet_dUpdate {κ ν : Type} [DecidableEq κ]
    (d : List (κ × ν)) (k : κ) (v : ν) (k' : κ) :
    dGet (dUpdate d k v) k' = if k' = k then some v else dGet d k' := by
  induction d with
  | nil => simp [dUpdate, dGet]
  | cons hd rest ih =>
      obtain ⟨k₀, v₀⟩ := hd
      by_cases h₀ : k = k₀
      · subst h₀
        by_cases h' : k' = k <;> simp [dUpdate, dGet, h']
      · by_cases h' : k' = k₀
        · subst h'
          have hk : ¬k' = k := fun h => h₀ h.symm
          simp [dUpdate, dGet, h₀, hk]
        · simp [dUpdate, dGet, h₀, h', ih]

theorem dGet_append_single {κ ν : Type} [DecidableEq κ]
    (d : List (κ × ν)) (k : κ) (v : ν) (k' : κ) :
    dGet (d ++ [(k, v)]) k' =
      match dGet d k' with
      | some w => some w
      | none => if k' = k then some v else none := by
  induction d with
  | nil => simp [dGet]
  | cons hd rest ih =>
      obtain ⟨k₀, v₀⟩ := hd
      by_cases h' : k' = k₀ <;> simp [dGet, h', ih]

/-- Python truthiness (`bool(x)`) of a JSON value: `None`, `False`, `0`,
empty strings, empty lists and empty dicts are falsy; everything else is
truthy. -/
def truthy : Json → Bool
  | .null => false
  | .bool b => b
  | .int n => n != 0
  | .str s => s != ""
  | .arr xs => !xs.isEmpty
  | .obj kvs => !kvs.isEmpty

/-- Python `a or b`: the left operand when truthy, otherwise the right. -/
def pyOr (v d : Json) : Json := if truthy v then v else d

/-- Characters removed by Python `str.strip()` (the ASCII whitespace subset
of Python's whitespace set; the data handled by the program is ASCII). -/
def isPySpace (c : Char) : Bool :=
  c = ' ' || c = '\t' || c = '\n' || c = '\r' || c = '\x0b' || c = '\x0c'

/-- Remove leading and trailing whitespace from a character list. -/
def stripChars (cs : List Char) : List Char :=
  ((cs.dropWhile isPySpace).reverse.dropWhile isPySpace).reverse

/-- Python `str.strip()`. -/
def pyStrip (s : String) : String := String.mk (stripChars s.data)

/-- Python `str.upper()`, character-wise (`Char.toUpper` upcases ASCII). -/
def pyUpper (s : String) : String := String.mk (s.data.map Char.toUpper)

/-- Python substring test `needle in hay`. -/
def containsSub (needle hay : String) : Bool :=
  hay.data.tails.any (fun t => needle.data.isPrefixOf t)

/-- Numeric value of a list of decimal digit characters. -/
def digitsVal (cs : List Char) : Nat :=
  cs.foldl (fun a c => a * 10 + (c.toNat - 48)) 0

/-- Python `int(s)` on a string: optional surrounding whitespace, an
optional sign, then one or more ASCII decimal digits.  (Underscore digit
grouping and non-ASCII digits accepted by CPython are outside the model.) -/
def parseIntLit (cs : List Char) : Option Int :=
  let t := stripChars cs
  let sr : Int × List Char :=
    match t with
    | '-' :: r => (-1, r)
    | '+' :: r => (1, r)
    | r => (1, r)
  if sr.2 ≠ [] ∧ sr.2.all (fun c => c.isDigit) then
    some (sr.1 * (digitsVal sr.2 : Int))
  else none

/-- Errors raised by the modelled Python code. -/
inductive PyErr where
  /-- The `ValueError("__NEXT_DATA__ script tag bulunamadı.")` raised when
  the script tag is absent (the spec's ExtractionError). -/
  | extractionError : PyErr
  /-- The `ValueError` wrapping a `json.JSONDecodeError` raised when the
  tag content is not valid JSON (the spec's ParseError). -/
  | parseError : PyErr
  /-- A `ValueError` from `int()` applied to a non-numeric string. -/
  | valueError : PyErr
  /-- A `TypeError`, e.g. `int()` or iteration applied to an unsupported
  type. -/
  | typeError : PyErr
  /-- An `AttributeError`, e.g. `.get`/`.strip` on a value lacking the
  method. -/
  | attributeError : PyErr
  deriving DecidableEq, Repr

/-- Python `int(x)` on a JSON value: integers are returned as-is, booleans
map to 0/1, strings are parsed as integer literals (`ValueError` when the
string is not numeric), and `None`/lists/dicts raise `TypeError`. -/
def pyInt : Json → Except PyErr Int
  | .int n => .ok n
  | .bool b => .ok (if b then 1 else 0)
  | .str s =>
      match parseIntLit s.data with
      | some n => .ok n
      | none => .error .valueError
  | _ => .error .typeError

deriving instance DecidableEq for Except

example : pyInt (.str " 42 ") = .ok 42 := by decide
example : pyInt (.str "abc") = .error .valueError := by decide
example : pyInt (.str "-7") = .ok (-7) := by decide
example : truthy (.arr []) = false := by decide
example : containsSub "RELAY" "MIXED RELAY X" = true := by decide
example : containsSub "RELAY" "OPEN MEN" = false := by decide
example : pyStrip "  ab c\t" = "ab c" := by decide

/-- The module-level constant `EXCLUDE_KEYWORDS = ["SPECTATOR", "RELAY"]`. -/
def EXCLUDE_KEYWORDS : List String := ["SPECTATOR", "RELAY"]

/-- Python `v.get(key)`: a dictionary lookup returning `None` (`none`) when
the key is absent; any non-dict receiver raises `AttributeError`. -/
def pyGet (v : Json) (key : String) : Except PyErr (Option Json) :=
  match v with
  | .obj kvs => .ok (dGet kvs key)
  | _ => .error .attributeError

/-- Python `v.get(key, dflt)`: as `pyGet` but with an explicit default. -/
def pyGetD (v : Json) (key : String) (dflt : Json) : Except PyErr Json :=
  match v with
  | .obj kvs => .ok ((dGet kvs key).getD dflt)
  | _ => .error .attributeError

/-- Iteration over a value that the program expects to be a list.  A truthy
non-list here always errors in the source: scalars raise `TypeError` at the
`for`, while a nonempty string or dict yields elements that immediately
fail the `.get` call on the first element (`AttributeError`); both abort
the run and are collapsed to `typeError` in the model. -/
def asList (v : Json) : Except PyErr (List Json) :=
  match v with
  | .arr xs => .ok xs
  | _ => .error .typeError

/-- The category lookup built at line 78 of the source: a dictionary from
`c.get("ref")` (a JSON value, or `none` for a missing key) to
`c.get("name") or "Unknown"`. -/
abbrev CatMap : Type := List (Option Json × Json)

/-- One entry of the category-map comprehension:
`c.get("ref") : (c.get("name") or "Unknown")`.  A non-dict category record
raises `AttributeError` at `c.get`. -/
def catEntry (c : Json) : Except PyErr (Option Json × Json) :=
  match c with
  | .obj kvs =>
      .ok (dGet kvs "ref", pyOr ((dGet kvs "name").getD .null) (.str "Unknown"))
  | _ => .error .attributeError

/-- The dict comprehension
`{c.get("ref"): (c.get("name") or "Unknown") for c in categories}`,
evaluated left to right with later duplicate keys overwriting earlier
values. -/
def buildCatMap : CatMap → List Json → Except PyErr CatMap
  | m, [] => .ok m
  | m, c :: rest =>
      match catEntry c with
      | .error e => .error e
      | .ok (k, v) => buildCatMap (dUpdate m k v) rest

/-- Line 82 of the source: `name = (t.get("name") or "").strip()`.  Calling
`.strip()` on a truthy non-string raises `AttributeError`. -/
def nameOf (kvs : List (String × Json)) : Except PyErr String :=
  match pyOr ((dGet kvs "name").getD .null) (.str "") with
  | .str s => .ok (pyStrip s)
  | _ => .error .attributeError

/-- Line 91 of the source: `stock = int(t.get("v") or 0)`. -/
def stockOf (kvs : List (String × Json)) : Except PyErr Int :=
  pyInt (pyOr ((dGet kvs "v").getD .null) (.int 0))

/-- Lines 92-93 of the source:
`style = t.get("styleOptions") or {}` followed by
`hidden = bool(style.get("hiddenInSelectionArea"))`.  Calling `.get` on a
truthy non-dict style value raises `AttributeError`. -/
def hiddenOf (kvs : List (String × Json)) : Except PyErr Bool :=
  match pyOr ((dGet kvs "styleOptions").getD .null) (.obj []) with
  | .obj style => .ok (truthy ((dGet style "hiddenInSelectionArea").getD .null))
  | _ => .error .attributeError

/-- A surviving row `{"parkur": ..., "ticket": ..., "stock": ...}`.  The
parkur is a `Json` value because the category name taken from the page is
stored without conversion. -/
structure Row where
  parkur : Json
  ticket : String
  stock : Int
  deriving DecidableEq, Repr

/-- The body of the `for t in tickets` loop (lines 81-97): returns
`some row` when the ticket survives all filters, `none` when it is skipped,
and an error when the Python code would raise. -/
def processTicket (cm : CatMap) (t : Json) : Except PyErr (Option Row) :=
  match t with
  | .obj kvs =>
      match nameOf kvs with
      | .error e => .error e
      | .ok name =>
          if name = "" then .ok none
          else if EXCLUDE_KEYWORDS.any (fun k => containsSub k (pyUpper name)) then
            .ok none
          else
            let active := truthy ((dGet kvs "active").getD .null)
            match stockOf kvs with
            | .error e => .error e
            | .ok stock =>
                match hiddenOf kvs with
                | .error e => .error e
                | .ok hidden =>
                    if active = true ∧ 0 < stock ∧ hidden = false then
                      .ok (some
                        { parkur := (dGet cm (dGet kvs "categoryRef")).getD (.str "Unknown"),
                          ticket := name, stock := stock })
                    else .ok none
  | _ => .error .attributeError

/-- The accumulation of surviving rows in source order (the `rows` list of
lines 80-97). -/
def buildRows (cm : CatMap) : List Row → List Json → Except PyErr (List Row)
  | acc, [] => .ok acc
  | acc, t :: rest =>
      match processTicket cm t with
      | .error e => .error e
      | .ok none => buildRows cm acc rest
      | .ok (some r) => buildRows cm (acc ++ [r]) rest

/-- The nested mapping `parkur -> ticket -> stock`. -/
abbrev ByParkur : Type := List (Json × List (String × Int))

/-- One step of the grouping loop (lines 101-107):
`by_parkur.setdefault(p, {})` followed by
`by_parkur[p][n] = by_parkur[p].get(n, 0) + s`. -/
def addRow (bp : ByParkur) (r : Row) : ByParkur :=
  let bp1 : ByParkur :=
    match dGet bp r.parkur with
    | some _ => bp
    | none => bp ++ [(r.parkur, [])]
  let inner := (dGet bp1 r.parkur).getD []
  dUpdate bp1 r.parkur (dUpdate inner r.ticket ((dGet inner r.ticket).getD 0 + r.stock))

/-- The grouping loop over the filtered rows (lines 100-107). -/
def buildByParkur (rows : List Row) : ByParkur := rows.foldl addRow []

/-- The value returned by `build_inventory`:
`{"tickets": rows, "by_parkur": by_parkur}`. -/
structure Inventory where
  tickets : List Row
  by_parkur : ByParkur
  deriving DecidableEq, Repr

/-- The aggregator `build_inventory` (lines 68-109), embedded step by step:
navigate `props.pageProps.event` with empty-dict defaults, read the
`tickets` and `categories` values with empty-list defaults and `or []`
fallbacks, build the category map, filter the tickets, and group the
surviving rows. -/
def build_inventory (next_data : Json) : Except PyErr Inventory :=
  match pyGetD next_data "props" (.obj []) with
  | .error e => .error e
  | .ok props =>
    match pyGetD props "pageProps" (.obj []) with
    | .error e => .error e
    | .ok pageProps =>
      match pyGetD pageProps "event" (.obj []) with
      | .error e => .error e
      | .ok event =>
        match pyGetD event "tickets" (.arr []) with
        | .error e => .error e
        | .ok ticketsRaw =>
          match pyGetD event "categories" (.arr []) with
          | .error e => .error e
          | .ok catsRaw =>
            match asList (pyOr catsRaw (.arr [])) with
            | .error e => .error e
            | .ok categories =>
              match buildCatMap [] categories with
              | .error e => .error e
              | .ok cm =>
                match asList (pyOr ticketsRaw (.arr [])) with
                | .error e => .error e
                | .ok tickets =>
                  match buildRows cm [] tickets with
                  | .error e => .error e
                  | .ok rows => .ok { tickets := rows, by_parkur := buildByParkur rows }

example :
    build_inventory (.obj [("props", .obj [("pageProps", .obj [("event", .obj
      [("tickets", .arr
         [.obj [("name", .str "Open Women"), ("active", .bool true), ("v", .int 5),
                ("categoryRef", .str "c1"), ("styleOptions", .obj [])],
          .obj [("name", .str "SPECTATOR PASS"), ("active", .bool true), ("v", .int 10),
                ("categoryRef", .str "c1")]]),
       ("categories", .arr [.obj [("ref", .str "c1"), ("name", .str "Individual")]])])])])]) =
    .ok { tickets := [{ parkur := .str "Individual", ticket := "Open Women", stock := 5 }],
          by_parkur := [(.str "Individual", [("Open Women", 5)])] } := by decide

/-- Case-insensitive prefix test (pattern characters are ASCII; both sides
are compared lower-cased, as `re.IGNORECASE` does for ASCII). -/
def startsWithCI : List Char → List Char → Bool
  | [], _ => true
  | _ :: _, [] => false
  | p :: ps, c :: cs => (p.toLower == c.toLower) && startsWithCI ps cs

/-- Index of the first case-insensitive occurrence of `pat` in a list. -/
def findCI (pat : List Char) : List Char → Option Nat
  | [] => if startsWithCI pat [] then some 0 else none
  | c :: rest =>
      if startsWithCI pat (c :: rest) then some 0
      else (findCI pat rest).map (fun i => i + 1)

/-- Attempt of the pattern
`<script[^>]*id="__NEXT_DATA__"[^>]*>(.*?)</script>` (case-insensitive,
dot-matches-newline) at the start of `r`; returns the text captured by
group 1.  After `<script`, the greedy `[^>]*` pieces can place
`id="__NEXT_DATA__"` at any offset inside the run of non-`>` characters,
and every such choice leads to the same first `>` ending the opening tag,
so an occurrence of the id literal inside that run is matched, the content
starts after the run's terminating `>`, and the lazy `(.*?)` ends at the
first following `</script>`. -/
def matchScriptAt (r : List Char) : Option (List Char) :=
  if startsWithCI "<script".data r then
    let rest := r.drop 7
    let run := rest.takeWhile (fun c => c ≠ '>')
    match findCI "id=\"__NEXT_DATA__\"".data run with
    | none => none
    | some _ =>
        if run.length < rest.length then
          let content := rest.drop (run.length + 1)
          match findCI "</script>".data content with
          | none => none
          | some c => some (content.take c)
        else none
  else none

/-- The leftmost match of the script-tag pattern, as found by `re.search`
(line 54 of the source): try every start position left to right. -/
def searchNextData : List Char → Option (List Char)
  | [] => none
  | c :: rest =>
      match matchScriptAt (c :: rest) with
      | some g => some g
      | none => searchNextData rest

/-- Whitespace skipped between JSON tokens (the four characters the JSON
grammar allows). -/
def skipJWs (cs : List Char) : List Char :=
  cs.dropWhile (fun c => c = ' ' || c = '\t' || c = '\n' || c = '\r')

/-- Value of an ASCII hex digit, if any. -/
def hexVal (c : Char) : Option Nat :=
  if '0' ≤ c ∧ c ≤ '9' then some (c.toNat - 48)
  else if 'a' ≤ c ∧ c ≤ 'f' then some (c.toNat - 87)
  else if 'A' ≤ c ∧ c ≤ 'F' then some (c.toNat - 55)
  else none

/-- Decoding of a JSON string escape character (`\u` is handled separately). -/
def escChar (c : Char) : Option Char :=
  if c = '"' then some '"'
  else if c = '\\' then some '\\'
  else if c = '/' then some '/'
  else if c = 'b' then some '\x08'
  else if c = 'f' then some '\x0c'
  else if c = 'n' then some '\n'
  else if c = 'r' then some '\r'
  else if c = 't' then some '\t'
  else none

/-- Parse the integer number tokens of the JSON grammar:
`-?(0|[1-9][0-9]*)`.  Fractional and exponent parts are outside the model
(see the header comment); when present they are left unconsumed, which
makes the enclosing parse fail. -/
def parseJNumber (cs : List Char) : Option (Json × List Char) :=
  let sr : Bool × List Char :=
    match cs with
    | '-' :: r => (true, r)
    | r => (false, r)
  match sr.2 with
  | '0' :: r2 =>
      (match r2 with
       | c :: _ => if c.isDigit then none else some (.int 0, r2)
       | [] => some (.int 0, []))
  | c :: _ =>
      if c.isDigit then
        let ds := sr.2.takeWhile (fun d => d.isDigit)
        let rem := sr.2.dropWhile (fun d => d.isDigit)
        some (.int ((if sr.1 then -1 else 1) * (digitsVal ds : Int)), rem)
      else none
  | [] => none

mutual

/-- Fuel-indexed recursive-descent parser for a JSON value, modelling
`json.loads` (which uses this grammar); returns the value and the
unconsumed remainder. -/
def parseJValue : Nat → List Char → Option (Json × List Char)
  | 0, _ => none
  | fuel + 1, cs =>
      match skipJWs cs with
      | [] => none
      | 'n' :: rest =>
          if rest.take 3 = "ull".data then some (.null, rest.drop 3) else none
      | 't' :: rest =>
          if rest.take 3 = "rue".data then some (.bool true, rest.drop 3) else none
      | 'f' :: rest =>
          if rest.take 4 = "alse".data then some (.bool false, rest.drop 4) else none
      | '"' :: rest =>
          (match parseJString fuel rest with
           | some (s, r) => some (.str s, r)
           | none => none)
      | '[' :: rest =>
          (match skipJWs rest with
           | ']' :: r2 => some (.arr [], r2)
           | _ =>
               match parseJItems fuel rest with
               | some (xs, r2) => some (.arr xs, r2)
               | none => none)
      | '\x7b' :: rest =>
          (match skipJWs rest with
           | '\x7d' :: r2 => some (.obj [], r2)
           | _ =>
               match parseJFields fuel rest with
               | some (kvs, r2) => some (.obj kvs, r2)
               | none => none)
      | other => parseJNumber other

/-- Comma-separated array elements up to the closing bracket. -/
def parseJItems : Nat → List Char → Option (List Json × List Char)
  | 0, _ => none
  | fuel + 1, cs =>
      match parseJValue fuel cs with
      | none => none
      | some (v, rest) =>
          match skipJWs rest with
          | ',' :: r2 =>
              (match parseJItems fuel r2 with
               | some (vs, r3) => some (v :: vs, r3)
               | none => none)
          | ']' :: r2 => some ([v], r2)
          | _ => none

/-- Comma-separated `"key": value` object members up to the closing brace. -/
def parseJFields : Nat → List Char → Option (List (String × Json) × List Char)
  | 0, _ => none
  | fuel + 1, cs =>
      match skipJWs cs with
      | '"' :: rest =>
          (match parseJString fuel rest with
           | none => none
           | some (k, r2) =>
               match skipJWs r2 with
               | ':' :: r3 =>
                   (match parseJValue fuel r3 with
                    | none => none
                    | some (v, r4) =>
                        match skipJWs r4 with
                        | ',' :: r5 =>
                            (match parseJFields fuel r5 with
                             | some (kvs, r6) => some ((k, v) :: kvs, r6)
                             | none => none)
                        | '\x7d' :: r5 => some ([(k, v)], r5)
                        | _ => none)
               | _ => none)
      | _ => none

/-- The body of a JSON string after the opening quote.  Unescaped control
characters are rejected; `\uXXXX` escapes are mapped through `Char.ofNat`
(code points that are not valid Lean scalar values, i.e. lone surrogates,
collapse to U+0000 - a model limitation). -/
def parseJString : Nat → List Char → Option (String × List Char)
  | 0, _ => none
  | fuel + 1, cs =>
      match cs with
      | [] => none
      | '"' :: rest => some ("", rest)
      | '\\' :: 'u' :: a :: b :: c :: d :: rest =>
          (match hexVal a, hexVal b, hexVal c, hexVal d with
           | some ha, some hb, some hc, some hd =>
               (match parseJString fuel rest with
                | some (s, r) =>
                    some (String.mk (Char.ofNat (((ha * 16 + hb) * 16 + hc) * 16 + hd) :: s.data), r)
                | none => none)
           | _, _, _, _ => none)
      | '\\' :: e :: rest =>
          (match escChar e with
           | some ec =>
               (match parseJString fuel rest with
                | some (s, r) => some (String.mk (ec :: s.data), r)
                | none => none)
           | none => none)
      | ch :: rest =>
          if ch.toNat < 32 then none
          else
            match parseJString fuel rest with
            | some (s, r) => some (String.mk (ch :: s.data), r)
            | none => none

end

/-- The model of `json.loads`: parse one JSON document, allowing trailing
whitespace only. -/
def jsonParse (cs : List Char) : Option Json :=
  match parseJValue (cs.length + 1) cs with
  | some (v, rest) => if skipJWs rest = [] then some v else none
  | none => none

example : jsonParse "3".data = some (.int 3) := by decide
example : jsonParse " \x7b\"a\": [1, -2], \"b\": null\x7d ".data =
    some (.obj [("a", .arr [.int 1, .int (-2)]), ("b", .null)]) := by decide
example : jsonParse "tru".data = none := by decide
example : jsonParse "\x7b".data = none := by decide
example : jsonParse "\"a\\u0041b\"".data = some (.str "aAb") := by decide

/-- The function `extract_next_data` (lines 52-65): search for the
`__NEXT_DATA__` script tag, raise a `ValueError` (the spec's
ExtractionError) when it is absent, otherwise strip the captured group and
parse it as JSON, wrapping a decode failure in a `ValueError` (the spec's
ParseError). -/
def extract_next_data (html : String) : Except PyErr Json :=
  match searchNextData html.data with
  | none => .error .extractionError
  | some raw =>
      match jsonParse (stripChars raw) with
      | none => .error .parseError
      | some j => .ok j

example : extract_next_data "<html></html>" = .error .extractionError := by decide
example : extract_next_data
    "<p><SCRIPT type=\"application/json\" id=\"__next_data__\" async> 7 </SCRIPT>" =
    .ok (.int 7) := by decide
example : extract_next_data "<script id=\"__NEXT_DATA__\">nope</script>" =
    .error .parseError := by decide

/-- Decimal digit characters of a natural number (fuel-indexed so that it
reduces by kernel computation). -/
def natToDigits : Nat → Nat → List Char
  | 0, _ => []
  | fuel + 1, n =>
      if n < 10 then [Char.ofNat (48 + n)]
      else natToDigits fuel (n / 10) ++ [Char.ofNat (48 + n % 10)]

/-- Decimal representation of a natural number. -/
def natRepr (n : Nat) : List Char := natToDigits (n + 1) n

/-- Two-digit zero-padded decimal, as produced by the `%d` and `%m`
directives of `strftime` (day and month are at most two digits). -/
def pad2 (n : Nat) : List Char := if n < 10 then '0' :: natRepr n else natRepr n

/-- Four-digit zero-padded decimal (the `DD.MM.YYYY` spec rendering of a
year, which has at most four digits for `datetime` years). -/
def pad4 (n : Nat) : List Char :=
  if n < 10 then '0' :: '0' :: '0' :: natRepr n
  else if n < 100 then '0' :: '0' :: natRepr n
  else if n < 1000 then '0' :: natRepr n
  else natRepr n

/-- The calendar date of a run (the date part of the `datetime` value
returned by `now_copenhagen`; the time of day and the timezone offset are
not needed by any claim and are not modelled). -/
structure PyDate where
  year : Nat
  month : Nat
  day : Nat
  deriving DecidableEq, Repr

/-- Processing of a `strftime` format string, for the directives the
program uses: `%d` (zero-padded day), `%m` (zero-padded month) and `%Y`
(the year, printed without padding as glibc does). -/
def strftimeFmt : List Char → PyDate → List Char
  | [], _ => []
  | '%' :: 'd' :: rest, d => pad2 d.day ++ strftimeFmt rest d
  | '%' :: 'm' :: rest, d => pad2 d.month ++ strftimeFmt rest d
  | '%' :: 'Y' :: rest, d => natRepr d.year ++ strftimeFmt rest d
  | c :: rest, d => c :: strftimeFmt rest d

/-- The function `date_filename` (lines 30-32):
`dt.strftime("%d.%m.%Y") + ".json"`. -/
def date_filename (dt : PyDate) : String :=
  String.mk (strftimeFmt "%d.%m.%Y".data dt ++ ".json".data)

/-- Modelled from the spec: the `DD.MM.YYYY` filename pattern of sections
4.4 and 6, written directly from the spec's words (two-digit day, dot,
two-digit month, dot, four-digit year, then the `.json` suffix), to be
compared with the source-derived `date_filename`. -/
def specFilename (dt : PyDate) : String :=
  String.mk (pad2 dt.day ++ '.' :: pad2 dt.month ++ '.' :: pad4 dt.year ++ ".json".data)

example : date_filename ⟨2026, 1, 3⟩ = "03.01.2026.json" := by decide

/-- The date part of `datetime.isoformat()` (the time of day and offset
that follow it in the real string are not modelled; no claim depends on
them). -/
def isoformat (dt : PyDate) : String :=
  String.mk (pad4 dt.year ++ '-' :: pad2 dt.month ++ '-' :: pad2 dt.day)

/-- The output document assembled at lines 123-127: the source URL, the
fetch timestamp, and the two inventory fields spliced in by `**inv`. -/
structure Payload where
  event_url : String
  fetched_at : String
  tickets : List Row
  by_parkur : ByParkur
  deriving DecidableEq, Repr

/-- The pipeline of `main` (lines 112-130) after the HTTP fetch, with the
fetched page text and the `now_copenhagen()` date as inputs: compute the
output filename, extract the embedded JSON, build the inventory, and
assemble the payload.  The returned pair is the single file write
`(filename, document)`; an error result means the run aborts before
`out_path.write_text`, so no file is written. -/
def mainRun (url : String) (dt : PyDate) (html : String) :
    Except PyErr (String × Payload) :=
  let filename := date_filename dt
  match extract_next_data html with
  | .error e => .error e
  | .ok nd =>
      match build_inventory nd with
      | .error e => .error e
      | .ok inv =>
          .ok (filename,
            { event_url := url, fetched_at := isoformat dt,
              tickets := inv.tickets, by_parkur := inv.by_parkur })

example :
    mainRun "u" ⟨2026, 1, 3⟩ "<script id=\"__NEXT_DATA__\">\x7b\x7d</script>" =
    .ok ("03.01.2026.json",
      { event_url := "u", fetched_at := "2026-01-03", tickets := [], by_parkur := [] }) := by
  decide

/-- The stock recorded in `by_parkur` for a category and ticket name, with
0 for an absent key (matching `by_parkur.get(p, {}).get(n, 0)`). -/
def get2 (bp : ByParkur) (p : Json) (n : String) : Int :=
  (dGet ((dGet bp p).getD []) n).getD 0

/-- Sum of the stocks of the rows whose parkur and ticket name match. -/
def sumStocks : List Row → Json → String → Int
  | [], _, _ => 0
  | r :: rest, p, n =>
      (if r.parkur = p ∧ r.ticket = n then r.stock else 0) + sumStocks rest p n

/-- Positivity of every stock count stored in the nested `by_parkur`
mapping. -/
def bpPos (bp : ByParkur) : Prop :=
  ∀ p inner, dGet bp p = some inner → ∀ n v, dGet inner n = some v → 0 < v

/-- A ticket record shaped as the spec's section 3 data model declares it:
an optional string name, an optional boolean `active`, an optional integer
stock `v`, an opaque category reference, and an optional boolean
`hiddenInSelectionArea` nested under `styleOptions`. -/
structure TicketRecord where
  name : Option String
  active : Option Bool
  v : Option Int
  categoryRef : Option Json
  hiddenInSelectionArea : Option Bool

/-- The key/value pairs of the JSON object carrying a `TicketRecord`
(absent optional fields produce no pair; a declared hidden flag sits inside
a `styleOptions` object). -/
def TicketRecord.kvs (r : TicketRecord) : List (String × Json) :=
  (match r.name with
   | some s => [("name", Json.str s)]
   | none => []) ++
  (match r.active with
   | some b => [("active", Json.bool b)]
   | none => []) ++
  (match r.v with
   | some n => [("v", Json.int n)]
   | none => []) ++
  (match r.categoryRef with
   | some j => [("categoryRef", j)]
   | none => []) ++
  (match r.hiddenInSelectionArea with
   | some b => [("styleOptions", Json.obj [("hiddenInSelectionArea", Json.bool b)])]
   | none => [])

/-- The JSON object carrying a `TicketRecord`. -/
def TicketRecord.toJson (r : TicketRecord) : Json := .obj r.kvs

/-- A parsed document whose `props.pageProps.event` object has the given
key/value pairs (used to state claims about the event-level fields). -/
def mkNd (ekvs : List (String × Json)) : Json :=
  .obj [("props", .obj [("pageProps", .obj [("event", .obj ekvs)])])]

theorem build_inventory_ok (nd : Json) (inv : Inventory)
    (h : build_inventory nd = .ok inv) :
    inv.by_parkur = buildByParkur inv.tickets ∧
    ∃ cm ts, buildRows cm [] ts = .ok inv.tickets := by
  unfold build_inventory at h
  cases h1 : pyGetD nd "props" (.obj []) with
  | error e => simp [h1] at h
  | ok props =>
  simp only [h1] at h
  cases h2 : pyGetD props "pageProps" (.obj []) with
  | error e => simp [h2] at h
  | ok pageProps =>
  simp only [h2] at h
  cases h3 : pyGetD pageProps "event" (.obj []) with
  | error e => simp [h3] at h
  | ok event =>
  simp only [h3] at h
  cases h4 : pyGetD event "tickets" (.arr []) with
  | error e => simp [h4] at h
  | ok ticketsRaw =>
  simp only [h4] at h
  cases h5 : pyGetD event "categories" (.arr []) with
  | error e => simp [h5] at h
  | ok catsRaw =>
  simp only [h5] at h
  cases h6 : asList (pyOr catsRaw (.arr [])) with
  | error e => simp [h6] at h
  | ok categories =>
  simp only [h6] at h
  cases h7 : buildCatMap [] categories with
  | error e => simp [h7] at h
  | ok cm =>
  simp only [h7] at h
  cases h8 : asList (pyOr ticketsRaw (.arr [])) with
  | error e => simp [h8] at h
  | ok tickets =>
  simp only [h8] at h
  cases h9 : buildRows cm [] tickets with
  | error e => simp [h9] at h
  | ok rows =>
  simp only [h9, Except.ok.injEq] at h
  subst h
  exact ⟨rfl, cm, tickets, h9⟩

theorem get2_addRow (bp : ByParkur) (r : Row) (p : Json) (n : String) :
    get2 (addRow bp r) p n =
      get2 bp p n + (if r.parkur = p ∧ r.ticket = n then r.stock else 0) := by
  cases hbp : dGet bp r.parkur with
  | some inner =>
      have ha : addRow bp r =
          dUpdate bp r.parkur
            (dUpdate inner r.ticket ((dGet inner r.ticket).getD 0 + r.stock)) := by
        unfold addRow
        simp only [hbp, Option.getD_some]
      rw [get2, get2, ha, dGet_dUpdate]
      by_cases hp : p = r.parkur
      · subst hp
        rw [if_pos rfl, Option.getD_some, dGet_dUpdate, hbp, Option.getD_some]
        by_cases hn : n = r.ticket
        · subst hn
          simp
        · have hc : ¬(r.parkur = r.parkur ∧ r.ticket = n) := fun h => hn h.2.symm
          rw [if_neg hn, if_neg hc, Int.add_zero]
      · have hc : ¬(r.parkur = p ∧ r.ticket = n) := fun h => hp h.1.symm
        rw [if_neg hp, if_neg hc, Int.add_zero]
  | none =>
      have hb1 : dGet (bp ++ [(r.parkur, ([] : List (String × Int)))]) r.parkur =
          some [] := by
        rw [dGet_append_single, hbp, if_pos rfl]
      have ha : addRow bp r =
          dUpdate (bp ++ [(r.parkur, [])]) r.parkur [(r.ticket, 0 + r.stock)] := by
        unfold addRow
        simp only [hbp, hb1, Option.getD_some]
        simp [dGet, dUpdate]
      rw [get2, get2, ha, dGet_dUpdate]
      by_cases hp : p = r.parkur
      · subst hp
        rw [if_pos rfl, Option.getD_some, hbp]
        by_cases hn : n = r.ticket
        · subst hn
          simp [dGet]
        · have hc : ¬(r.parkur = r.parkur ∧ r.ticket = n) := fun h => hn h.2.symm
          rw [if_neg hc, Int.add_zero]
          simp [dGet, hn]
      · have hc : ¬(r.parkur = p ∧ r.ticket = n) := fun h => hp h.1.symm
        rw [if_neg hp, if_neg hc, Int.add_zero, dGet_append_single]
        cases hg : dGet bp p with
        | some w => rfl
        | none => rw [if_neg hp]

theorem get2_foldl (rows : List Row) (bp : ByParkur) (p : Json) (n : String) :
    get2 (List.foldl addRow bp rows) p n = get2 bp p n + sumStocks rows p n := by
  induction rows generalizing bp with
  | nil => simp [sumStocks]
  | cons r rest ih =>
      rw [List.foldl_cons, ih, get2_addRow, sumStocks, Int.add_assoc]

theorem processTicket_pos (cm : CatMap) (t : Json) (r : Row)
    (h : processTicket cm t = .ok (some r)) : 0 < r.stock := by
  cases t with
  | obj kvs =>
      unfold processTicket at h
      cases hn : nameOf kvs with
      | error e => simp [hn] at h
      | ok name =>
      simp only [hn] at h
      by_cases h1 : name = ""
      · simp [h1] at h
      · rw [if_neg h1] at h
        by_cases h2 : (EXCLUDE_KEYWORDS.any fun k => containsSub k (pyUpper name)) = true
        · simp [h2] at h
        · rw [if_neg h2] at h
          cases hs : stockOf kvs with
          | error e => simp [hs] at h
          | ok stock =>
          simp only [hs] at h
          cases hh : hiddenOf kvs with
          | error e => simp [hh] at h
          | ok hidden =>
          simp only [hh] at h
          by_cases h3 : truthy ((dGet kvs "active").getD .null) = true ∧
              0 < stock ∧ hidden = false
          · rw [if_pos h3] at h
            simp only [Except.ok.injEq, Option.some.injEq] at h
            rw [← h]
            exact h3.2.1
          · rw [if_neg h3] at h
            simp at h
  | null => simp [processTicket] at h
  | bool b => simp [processTicket] at h
  | int n => simp [processTicket] at h
  | str s => simp [processTicket] at h
  | arr xs => simp [processTicket] at h

theorem buildRows_pos (cm : CatMap) (ts : List Json) :
    ∀ acc rows, (∀ r ∈ acc, 0 < r.stock) → buildRows cm acc ts = .ok rows →
      ∀ r ∈ rows, 0 < r.stock := by
  induction ts with
  | nil =>
      intro acc rows hacc h
      simp only [buildRows, Except.ok.injEq] at h
      rw [← h]
      exact hacc
  | cons t rest ih =>
      intro acc rows hacc h
      unfold buildRows at h
      cases hp : processTicket cm t with
      | error e => simp [hp] at h
      | ok o =>
      simp only [hp] at h
      cases o with
      | none => exact ih acc rows hacc h
      | some r0 =>
          refine ih (acc ++ [r0]) rows ?_ h
          intro r hr
          rcases List.mem_append.mp hr with hl | hr0
          · exact hacc r hl
          · rw [List.mem_singleton.mp hr0]
            exact processTicket_pos cm t r0 hp

theorem addRow_bpPos (bp : ByParkur) (r : Row) (hbp : bpPos bp)
    (hr : 0 < r.stock) : bpPos (addRow bp r) := by
  intro p inner h n v hv
  cases hg : dGet bp r.parkur with
  | some inner0 =>
      have ha : addRow bp r =
          dUpdate bp r.parkur
            (dUpdate inner0 r.ticket ((dGet inner0 r.ticket).getD 0 + r.stock)) := by
        unfold addRow
        simp only [hg, Option.getD_some]
      rw [ha, dGet_dUpdate] at h
      by_cases hp : p = r.parkur
      · rw [if_pos hp, Option.some.injEq] at h
        rw [← h, dGet_dUpdate] at hv
        by_cases hn : n = r.ticket
        · rw [if_pos hn, Option.some.injEq] at hv
          rw [← hv]
          cases ho : dGet inner0 r.ticket with
          | none => simpa [ho] using hr
          | some w =>
              have hw : 0 < w := hbp r.parkur inner0 hg r.ticket w ho
              simp only [ho, Option.getD_some]
              omega
        · rw [if_neg hn] at hv
          exact hbp r.parkur inner0 hg n v hv
      · rw [if_neg hp] at h
        exact hbp p inner h n v hv
  | none =>
      have hb1 : dGet (bp ++ [(r.parkur, ([] : List (String × Int)))]) r.parkur =
          some [] := by
        rw [dGet_append_single, hg, if_pos rfl]
      have ha : addRow bp r =
          dUpdate (bp ++ [(r.parkur, [])]) r.parkur [(r.ticket, 0 + r.stock)] := by
        unfold addRow
        simp only [hg, hb1, Option.getD_some]
        simp [dGet, dUpdate]
      rw [ha, dGet_dUpdate] at h
      by_cases hp : p = r.parkur
      · rw [if_pos hp, Option.some.injEq] at h
        rw [← h] at hv
        by_cases hn : n = r.ticket
        · simp only [dGet, if_pos hn, Option.some.injEq] at hv
          omega
        · simp [dGet, hn] at hv
      · rw [if_neg hp, dGet_append_single] at h
        cases hg2 : dGet bp p with
        | some w =>
            rw [hg2] at h
            simp only [Option.some.injEq] at h
            rw [← h] at hv
            exact hbp p w hg2 n v hv
        | none =>
            rw [hg2, if_neg hp] at h
            exact Option.noConfusion h

theorem foldl_bpPos (rows : List Row) :
    ∀ bp, bpPos bp → (∀ r ∈ rows, 0 < r.stock) →
      bpPos (List.foldl addRow bp rows) := by
  induction rows with
  | nil => intro bp h _; exact h
  | cons r rest ih =>
      intro bp h hrows
      rw [List.foldl_cons]
      exact ih (addRow bp r) (addRow_bpPos bp r h (hrows r (by simp)))
        (fun r' hr' => hrows r' (by simp [hr']))

/-- Claim C4: for every successful aggregation, `by_parkur` maps each
category and ticket name to the exact sum of the stocks of all surviving
rows with that category and name (duplicates are summed, never
overwritten; an absent key stands for the empty sum). -/
theorem claim_C4 (nd : Json) (inv : Inventory) (p : Json) (n : String)
    (h : build_inventory nd = .ok inv) :
    get2 inv.by_parkur p n = sumStocks inv.tickets p n := by
  rcases build_inventory_ok nd inv h with ⟨hbp, -⟩
  rw [hbp, buildByParkur, get2_foldl]
  simp [get2, dGet]

/-- Witness for C4 at the spec's summation example: two surviving records
named "Open" with stocks 3 and 5 under category "Men" sum to 8. -/
theorem claim_C4_witness :
    get2 (Inventory.by_parkur
        { tickets := [{ parkur := .str "Men", ticket := "Open", stock := 3 },
                      { parkur := .str "Men", ticket := "Open", stock := 5 }],
          by_parkur := [(.str "Men", [("Open", 8)])] })
      (.str "Men") "Open" =
    sumStocks (Inventory.tickets
        { tickets := [{ parkur := .str "Men", ticket := "Open", stock := 3 },
                      { parkur := .str "Men", ticket := "Open", stock := 5 }],
          by_parkur := [(.str "Men", [("Open", 8)])] })
      (.str "Men") "Open" :=
  claim_C4
    (.obj [("props", .obj [("pageProps", .obj [("event", .obj
      [("tickets", .arr
         [.obj [("name", .str "Open"), ("active", .bool true), ("v", .int 3),
                ("categoryRef", .str "c1")],
          .obj [("name", .str "Open"), ("active", .bool true), ("v", .int 5),
                ("categoryRef", .str "c1")]]),
       ("categories", .arr [.obj [("ref", .str "c1"), ("name", .str "Men")]])])])])])
    { tickets := [{ parkur := .str "Men", ticket := "Open", stock := 3 },
                  { parkur := .str "Men", ticket := "Open", stock := 5 }],
      by_parkur := [(.str "Men", [("Open", 8)])] }
    (.str "Men") "Open" (by decide)

/-- Claim C9: every row of a successful aggregation has strictly positive
stock, and consequently every value stored in `by_parkur` is strictly
positive. -/
theorem claim_C9 (nd : Json) (inv : Inventory)
    (h : build_inventory nd = .ok inv) :
    (∀ r ∈ inv.tickets, 0 < r.stock) ∧ bpPos inv.by_parkur := by
  rcases build_inventory_ok nd inv h with ⟨hbp, cm, ts, hrows⟩
  have hpos : ∀ r ∈ inv.tickets, 0 < r.stock :=
    buildRows_pos cm ts [] inv.tickets (by simp) hrows
  refine ⟨hpos, ?_⟩
  rw [hbp, buildByParkur]
  exact foldl_bpPos inv.tickets [] (fun p inner h' => by simp [dGet] at h') hpos

/-- Witness for C9 at a concrete single-ticket document. -/
theorem claim_C9_witness :
    (∀ r ∈ Inventory.tickets
        { tickets := [{ parkur := .str "Unknown", ticket := "A", stock := 2 }],
          by_parkur := [(.str "Unknown", [("A", 2)])] }, 0 < r.stock) ∧
    bpPos (Inventory.by_parkur
        { tickets := [{ parkur := .str "Unknown", ticket := "A", stock := 2 }],
          by_parkur := [(.str "Unknown", [("A", 2)])] }) :=
  claim_C9
    (.obj [("props", .obj [("pageProps", .obj [("event", .obj
      [("tickets", .arr [.obj [("name", .str "A"), ("active", .bool true),
                               ("v", .int 2)]])])])])])
    { tickets := [{ parkur := .str "Unknown", ticket := "A", stock := 2 }],
      by_parkur := [(.str "Unknown", [("A", 2)])] }
    (by decide)

/-- Claim C3: when the page has no `__NEXT_DATA__` script tag the extractor
raises the ExtractionError-valued `ValueError` and the whole run aborts
with it before any file write; when the tag is present but its stripped
content is not valid JSON, the ParseError-valued `ValueError` is raised
instead; otherwise the parsed document is returned. -/
theorem claim_C3 (html : String) :
    (searchNextData html.data = none →
       extract_next_data html = .error .extractionError ∧
       ∀ url dt, mainRun url dt html = .error .extractionError) ∧
    (∀ raw, searchNextData html.data = some raw →
       jsonParse (stripChars raw) = none →
       extract_next_data html = .error .parseError) ∧
    (∀ raw j, searchNextData html.data = some raw →
       jsonParse (stripChars raw) = some j →
       extract_next_data html = .ok j) := by
  refine ⟨fun h => ⟨?_, fun url dt => ?_⟩, fun raw h1 h2 => ?_,
    fun raw j h1 h2 => ?_⟩
  · simp [extract_next_data, h]
  · simp [mainRun, extract_next_data, h]
  · simp [extract_next_data, h1, h2]
  · simp [extract_next_data, h1, h2]

/-- Witness for C3 on three concrete pages: no tag, a tag with invalid
JSON, and a tag with the JSON document `12`. -/
theorem claim_C3_witness :
    (extract_next_data "<html></html>" = .error .extractionError ∧
     ∀ url dt, mainRun url dt "<html></html>" = .error .extractionError) ∧
    extract_next_data "<script id=\"__NEXT_DATA__\">x</script>" =
      .error .parseError ∧
    extract_next_data "<script id=\"__NEXT_DATA__\"> 12 </script>" =
      .ok (.int 12) :=
  ⟨(claim_C3 "<html></html>").1 (by decide),
   (claim_C3 "<script id=\"__NEXT_DATA__\">x</script>").2.1 "x".data
     (by decide) (by decide),
   (claim_C3 "<script id=\"__NEXT_DATA__\"> 12 </script>").2.2 " 12 ".data
     (.int 12) (by decide) (by decide)⟩

/-- Claim C6: a surviving ticket whose category reference has no match in
the category map gets the literal parkur "Unknown" (when the categories
list is absent or empty the map is empty, so every reference is
unmatched). -/
theorem claim_C6 (cm : CatMap) (kvs : List (String × Json)) (row : Row)
    (hok : processTicket cm (.obj kvs) = .ok (some row))
    (hmiss : dGet cm (dGet kvs "categoryRef") = none) :
    row.parkur = .str "Unknown" := by
  unfold processTicket at hok
  cases hn : nameOf kvs with
  | error e => simp [hn] at hok
  | ok name =>
  simp only [hn] at hok
  by_cases h1 : name = ""
  · simp [h1] at hok
  · rw [if_neg h1] at hok
    by_cases h2 : (EXCLUDE_KEYWORDS.any fun k => containsSub k (pyUpper name)) = true
    · simp [h2] at hok
    · rw [if_neg h2] at hok
      cases hs : stockOf kvs with
      | error e => simp [hs] at hok
      | ok stock =>
      simp only [hs] at hok
      cases hh : hiddenOf kvs with
      | error e => simp [hh] at hok
      | ok hidden =>
      simp only [hh] at hok
      by_cases h3 : truthy ((dGet kvs "active").getD .null) = true ∧
          0 < stock ∧ hidden = false
      · rw [if_pos h3] at hok
        simp only [Except.ok.injEq, Option.some.injEq] at hok
        rw [← hok, hmiss]
        rfl
      · rw [if_neg h3] at hok
        simp at hok

/-- Witness for C6: with an empty category map a surviving ticket's row
carries parkur "Unknown". -/
theorem claim_C6_witness :
    Row.parkur { parkur := .str "Unknown", ticket := "A", stock := 1 } =
      .str "Unknown" :=
  claim_C6 [] [("name", .str "A"), ("active", .bool true), ("v", .int 1)]
    { parkur := .str "Unknown", ticket := "A", stock := 1 }
    (by decide) (by decide)

/-- Claim C7: the aggregation is deterministic; two runs on the same page
text, differing only in their dates, produce identical `tickets` and
`by_parkur` contents (only the timestamp and filename can differ). -/
theorem claim_C7 (url : String) (dt1 dt2 : PyDate) (html : String)
    (o1 o2 : String × Payload)
    (h1 : mainRun url dt1 html = .ok o1) (h2 : mainRun url dt2 html = .ok o2) :
    o1.2.tickets = o2.2.tickets ∧ o1.2.by_parkur = o2.2.by_parkur := by
  unfold mainRun at h1 h2
  cases he : extract_next_data html with
  | error e => simp [he] at h1
  | ok nd =>
  simp only [he] at h1 h2
  cases hb : build_inventory nd with
  | error e => simp [hb] at h1
  | ok inv =>
  simp only [hb, Except.ok.injEq] at h1 h2
  rw [← h1, ← h2]
  exact ⟨rfl, rfl⟩

/-- Witness for C7: two runs dated a day apart on the same page. -/
theorem claim_C7_witness :
    ((("03.01.2026.json",
        { event_url := "u", fetched_at := "2026-01-03", tickets := [],
          by_parkur := [] }) : String × Payload).2.tickets =
      ((("04.01.2026.json",
        { event_url := "u", fetched_at := "2026-01-04", tickets := [],
          by_parkur := [] }) : String × Payload)).2.tickets) ∧
    ((("03.01.2026.json",
        { event_url := "u", fetched_at := "2026-01-03", tickets := [],
          by_parkur := [] }) : String × Payload).2.by_parkur =
      ((("04.01.2026.json",
        { event_url := "u", fetched_at := "2026-01-04", tickets := [],
          by_parkur := [] }) : String × Payload)).2.by_parkur) :=
  claim_C7 "u" ⟨2026, 1, 3⟩ ⟨2026, 1, 4⟩
    "<script id=\"__NEXT_DATA__\">\x7b\x7d</script>"
    ("03.01.2026.json",
      { event_url := "u", fetched_at := "2026-01-03", tickets := [],
        by_parkur := [] })
    ("04.01.2026.json",
      { event_url := "u", fetched_at := "2026-01-04", tickets := [],
        by_parkur := [] })
    (by decide) (by decide)

/-- Claim C8: for every run date (with a four-or-more-digit year, the
`datetime` range the `DD.MM.YYYY` pattern describes) the output filename is
the date in `DD.MM.YYYY` form followed by ".json"; in particular a run
dated 2026-01-03 produces "03.01.2026.json". -/
theorem claim_C8 (dt : PyDate) (h : 1000 ≤ dt.year) :
    date_filename dt = specFilename dt ∧
    date_filename ⟨2026, 1, 3⟩ = "03.01.2026.json" := by
  refine ⟨?_, by decide⟩
  have h1 : ¬dt.year < 10 := by omega
  have h2 : ¬dt.year < 100 := by omega
  have h3 : ¬dt.year < 1000 := by omega
  unfold date_filename specFilename pad4
  rw [if_neg h1, if_neg h2, if_neg h3]
  refine congrArg String.mk ?_
  show (pad2 dt.day ++ '.' :: (pad2 dt.month ++ '.' :: (natRepr dt.year ++ []))) ++
      ".json".data =
    pad2 dt.day ++ '.' :: pad2 dt.month ++ '.' :: natRepr dt.year ++ ".json".data
  simp

/-- Witness for C8 at the date 2026-01-03. -/
theorem claim_C8_witness :
    1000 ≤ (PyDate.mk 2026 1 3).year ∧
    (date_filename ⟨2026, 1, 3⟩ = specFilename ⟨2026, 1, 3⟩ ∧
     date_filename ⟨2026, 1, 3⟩ = "03.01.2026.json") :=
  ⟨by decide, claim_C8 ⟨2026, 1, 3⟩ (by decide)⟩

/-- Counterexample to C2 as stated: a ticket whose `v` is the truthy
non-numeric string "abc" makes `int(t.get("v") or 0)` raise a `ValueError`,
so the aggregator raises instead of treating the stock as zero. -/
theorem claim_C2_counterexample :
    build_inventory (.obj [("props", .obj [("pageProps", .obj [("event", .obj
      [("tickets", .arr [.obj [("name", .str "A"), ("active", .bool true),
                               ("v", .str "abc")]])])])])]) =
      .error .valueError := by decide

/-- Claim C2 (amended): a ticket whose `v` is missing or falsy has its
stock treated as zero — `t.get("v") or 0` yields 0 — and is therefore
excluded without error from this line; a truthy non-numeric `v` instead
raises (see the counterexample). -/
theorem claim_C2 (kvs : List (String × Json))
    (h : truthy ((dGet kvs "v").getD .null) = false) :
    stockOf kvs = .ok 0 ∧
    ∀ cm row, processTicket cm (.obj kvs) ≠ .ok (some row) := by
  have hs : stockOf kvs = .ok 0 := by
    unfold stockOf pyOr
    rw [h]
    rfl
  refine ⟨hs, fun cm row hok => ?_⟩
  unfold processTicket at hok
  cases hn : nameOf kvs with
  | error e => simp [hn] at hok
  | ok name =>
  simp only [hn] at hok
  by_cases h1 : name = ""
  · simp [h1] at hok
  · rw [if_neg h1] at hok
    by_cases h2 : (EXCLUDE_KEYWORDS.any fun k => containsSub k (pyUpper name)) = true
    · simp [h2] at hok
    · rw [if_neg h2] at hok
      simp only [hs] at hok
      cases hh : hiddenOf kvs with
      | error e => simp [hh] at hok
      | ok hidden =>
      simp only [hh] at hok
      have h3 : ¬(truthy ((dGet kvs "active").getD .null) = true ∧
          (0 : Int) < 0 ∧ hidden = false) := fun hc => lt_irrefl 0 hc.2.1
      rw [if_neg h3] at hok
      simp at hok

/-- Witness for the amended C2: a ticket with no `v` field at all. -/
theorem claim_C2_witness :
    truthy ((dGet ([("name", Json.str "A")] : List (String × Json)) "v").getD
      .null) = false ∧
    (stockOf [("name", .str "A")] = .ok 0 ∧
     ∀ cm row, processTicket cm (.obj [("name", .str "A")]) ≠ .ok (some row)) :=
  ⟨by decide, claim_C2 [("name", .str "A")] (by decide)⟩

/-- Counterexample to C5 as stated: a document whose event has a tickets
list but no `categories` key yields a NON-empty tickets list (with parkur
"Unknown"), so an absent categories list does not by itself empty the
output. -/
theorem claim_C5_counterexample :
    (dGet ([("tickets", Json.arr [.obj [("name", Json.str "A"),
        ("active", Json.bool true), ("v", Json.int 5)]])] :
        List (String × Json)) "categories" = none) ∧
    build_inventory (mkNd [("tickets", .arr [.obj [("name", .str "A"),
        ("active", .bool true), ("v", .int 5)]])]) =
      .ok { tickets := [{ parkur := .str "Unknown", ticket := "A", stock := 5 }],
            by_parkur := [(.str "Unknown", [("A", 5)])] } ∧
    ([{ parkur := .str "Unknown", ticket := "A", stock := 5 }] : List Row) ≠ [] := by
  refine ⟨by decide, by decide, by simp⟩

/-- Claim C5 (amended): a document in which `props`, `pageProps`, `event`
or the `tickets` key is absent yields an empty tickets list and an empty
`by_parkur` (for an absent `tickets` key, provided the categories value
still processes without error, since the category map is built first); an
absent `categories` key alone is merely treated as the empty list and does
not empty the output. -/
theorem claim_C5 :
    (∀ kvs : List (String × Json), dGet kvs "props" = none →
       build_inventory (.obj kvs) = .ok { tickets := [], by_parkur := [] }) ∧
    (∀ kvs pkvs, dGet kvs "props" = some (.obj pkvs) →
       dGet pkvs "pageProps" = none →
       build_inventory (.obj kvs) = .ok { tickets := [], by_parkur := [] }) ∧
    (∀ kvs pkvs ppkvs, dGet kvs "props" = some (.obj pkvs) →
       dGet pkvs "pageProps" = some (.obj ppkvs) →
       dGet ppkvs "event" = none →
       build_inventory (.obj kvs) = .ok { tickets := [], by_parkur := [] }) ∧
    (∀ ekvs cats cm, dGet ekvs "tickets" = none →
       asList (pyOr ((dGet ekvs "categories").getD (.arr [])) (.arr [])) = .ok cats →
       buildCatMap [] cats = .ok cm →
       build_inventory (mkNd ekvs) = .ok { tickets := [], by_parkur := [] }) ∧
    (∀ ekvs, dGet ekvs "categories" = none →
       build_inventory (mkNd ekvs) =
         build_inventory (mkNd (("categories", .arr []) :: ekvs))) := by
  refine ⟨fun kvs hk => ?_, fun kvs pkvs hk hp => ?_,
    fun kvs pkvs ppkvs hk hp he => ?_, fun ekvs cats cm ht hc hm => ?_,
    fun ekvs hc => ?_⟩
  · unfold build_inventory
    simp [pyGetD, hk, dGet, pyOr, truthy, asList, buildCatMap, buildRows,
      buildByParkur]
  · unfold build_inventory
    simp [pyGetD, hk, hp, dGet, pyOr, truthy, asList, buildCatMap, buildRows,
      buildByParkur]
  · unfold build_inventory
    simp [pyGetD, hk, hp, he, dGet, pyOr, truthy, asList, buildCatMap,
      buildRows, buildByParkur]
  · unfold build_inventory
    have e1 : pyGetD (mkNd ekvs) "props" (.obj []) =
        .ok (.obj [("pageProps", .obj [("event", .obj ekvs)])]) := rfl
    have e2 : pyGetD (.obj [("pageProps", .obj [("event", .obj ekvs)])])
        "pageProps" (.obj []) = .ok (.obj [("event", .obj ekvs)]) := rfl
    have e3 : pyGetD (.obj [("event", .obj ekvs)]) "event" (.obj []) =
        .ok (.obj ekvs) := rfl
    have e4 : pyGetD (.obj ekvs) "tickets" (.arr []) =
        .ok ((dGet ekvs "tickets").getD (.arr [])) := rfl
    have e5 : pyGetD (.obj ekvs) "categories" (.arr []) =
        .ok ((dGet ekvs "categories").getD (.arr [])) := rfl
    simp only [e1, e2, e3, e4, e5, ht, hc, hm, Option.getD_none]
    rfl
  · unfold build_inventory
    have e1 : pyGetD (mkNd ekvs) "props" (.obj []) =
        .ok (.obj [("pageProps", .obj [("event", .obj ekvs)])]) := rfl
    have e1' : pyGetD (mkNd (("categories", .arr []) :: ekvs)) "props"
        (.obj []) =
        .ok (.obj [("pageProps",
          .obj [("event", .obj (("categories", .arr []) :: ekvs))])]) := rfl
    have e2 : pyGetD (.obj [("pageProps", .obj [("event", .obj ekvs)])])
        "pageProps" (.obj []) = .ok (.obj [("event", .obj ekvs)]) := rfl
    have e2' : pyGetD (.obj [("pageProps",
        .obj [("event", .obj (("categories", .arr []) :: ekvs))])])
        "pageProps" (.obj []) =
        .ok (.obj [("event", .obj (("categories", .arr []) :: ekvs))]) := rfl
    have e3 : pyGetD (.obj [("event", .obj ekvs)]) "event" (.obj []) =
        .ok (.obj ekvs) := rfl
    have e3' : pyGetD (.obj [("event",
        .obj (("categories", .arr []) :: ekvs))]) "event" (.obj []) =
        .ok (.obj (("categories", .arr []) :: ekvs)) := rfl
    have e4 : pyGetD (.obj ekvs) "tickets" (.arr []) =
        .ok ((dGet ekvs "tickets").getD (.arr [])) := rfl
    have e4' : pyGetD (.obj (("categories", .arr []) :: ekvs)) "tickets"
        (.arr []) = .ok ((dGet ekvs "tickets").getD (.arr [])) := by
      simp [pyGetD, dGet]
    have e5 : pyGetD (.obj ekvs) "categories" (.arr []) = .ok (.arr []) := by
      simp [pyGetD, hc]
    have e5' : pyGetD (.obj (("categories", .arr []) :: ekvs)) "categories"
        (.arr []) = .ok (.arr []) := by
      simp [pyGetD, dGet]
    simp only [e1, e1', e2, e2', e3, e3', e4, e4', e5, e5']

/-- Witness for the amended C5, instantiating each absent-segment case at a
concrete document. -/
theorem claim_C5_witness :
    build_inventory (.obj []) = .ok { tickets := [], by_parkur := [] } ∧
    build_inventory (.obj [("props", .obj [])]) =
      .ok { tickets := [], by_parkur := [] } ∧
    build_inventory (.obj [("props", .obj [("pageProps", .obj [])])]) =
      .ok { tickets := [], by_parkur := [] } ∧
    build_inventory (mkNd [("categories", .arr [])]) =
      .ok { tickets := [], by_parkur := [] } ∧
    build_inventory (mkNd [("tickets", .arr [])]) =
      build_inventory (mkNd [("categories", .arr []), ("tickets", .arr [])]) :=
  ⟨claim_C5.1 [] (by decide),
   claim_C5.2.1 [("props", .obj [])] [] (by decide) (by decide),
   claim_C5.2.2.1 [("props", .obj [("pageProps", .obj [])])]
     [("pageProps", .obj [])] [] (by decide) (by decide) (by decide),
   claim_C5.2.2.2.1 [("categories", .arr [])] [] [] (by decide) (by decide)
     (by decide),
   claim_C5.2.2.2.2 [("tickets", .arr [])] (by decide)⟩

/-- Claim C10: a falsy `tickets` or `categories` value (null, false, 0,
empty string/list/dict) is treated as the empty list by the `or []`
fallback; a null or missing `styleOptions` is treated as an empty object,
making the hidden flag false; and a category record with a null or empty
name resolves to "Unknown". -/
theorem claim_C10 :
    (∀ (rest : List (String × Json)) (v : Json), truthy v = false →
       build_inventory (mkNd (("tickets", v) :: rest)) =
         build_inventory (mkNd (("tickets", .arr []) :: rest))) ∧
    (∀ (rest : List (String × Json)) (v : Json), truthy v = false →
       build_inventory (mkNd (("categories", v) :: rest)) =
         build_inventory (mkNd (("categories", .arr []) :: rest))) ∧
    (∀ kvs : List (String × Json),
       dGet kvs "styleOptions" = none ∨ dGet kvs "styleOptions" = some .null →
       hiddenOf kvs = .ok false) ∧
    (∀ ckvs : List (String × Json),
       dGet ckvs "name" = none ∨ dGet ckvs "name" = some .null ∨
         dGet ckvs "name" = some (.str "") →
       catEntry (.obj ckvs) = .ok (dGet ckvs "ref", .str "Unknown")) := by
  refine ⟨fun rest v hv => ?_, fun rest v hv => ?_, fun kvs h => ?_,
    fun ckvs h => ?_⟩
  · unfold build_inventory
    have e1 : ∀ w, pyGetD (mkNd (("tickets", w) :: rest)) "props" (.obj []) =
        .ok (.obj [("pageProps",
          .obj [("event", .obj (("tickets", w) :: rest))])]) := fun w => rfl
    have e2 : ∀ w, pyGetD (.obj [("pageProps",
        .obj [("event", .obj (("tickets", w) :: rest))])]) "pageProps"
        (.obj []) =
        .ok (.obj [("event", .obj (("tickets", w) :: rest))]) := fun w => rfl
    have e3 : ∀ w, pyGetD (.obj [("event", .obj (("tickets", w) :: rest))])
        "event" (.obj []) = .ok (.obj (("tickets", w) :: rest)) := fun w => rfl
    have e4 : ∀ w, pyGetD (.obj (("tickets", w) :: rest)) "tickets"
        (.arr []) = .ok w := fun w => by simp [pyGetD, dGet]
    have e5 : ∀ w, pyGetD (.obj (("tickets", w) :: rest)) "categories"
        (.arr []) = pyGetD (.obj rest) "categories" (.arr []) := fun w => by
      simp [pyGetD, dGet]
    have hor : pyOr v (.arr []) = pyOr (.arr []) (.arr []) := by
      unfold pyOr
      rw [hv]
      rfl
    simp only [e1, e2, e3, e4, e5, hor]
  · unfold build_inventory
    have e1 : ∀ w, pyGetD (mkNd (("categories", w) :: rest)) "props"
        (.obj []) =
        .ok (.obj [("pageProps",
          .obj [("event", .obj (("categories", w) :: rest))])]) := fun w => rfl
    have e2 : ∀ w, pyGetD (.obj [("pageProps",
        .obj [("event", .obj (("categories", w) :: rest))])]) "pageProps"
        (.obj []) =
        .ok (.obj [("event", .obj (("categories", w) :: rest))]) := fun w => rfl
    have e3 : ∀ w, pyGetD (.obj [("event",
        .obj (("categories", w) :: rest))]) "event" (.obj []) =
        .ok (.obj (("categories", w) :: rest)) := fun w => rfl
    have e4 : ∀ w, pyGetD (.obj (("categories", w) :: rest)) "tickets"
        (.arr []) = pyGetD (.obj rest) "tickets" (.arr []) := fun w => by
      simp [pyGetD, dGet]
    have e5 : ∀ w, pyGetD (.obj (("categories", w) :: rest)) "categories"
        (.arr []) = .ok w := fun w => by simp [pyGetD, dGet]
    have hor : pyOr v (.arr []) = pyOr (.arr []) (.arr []) := by
      unfold pyOr
      rw [hv]
      rfl
    simp only [e1, e2, e3, e4, e5, hor]
  · unfold hiddenOf
    rcases h with h | h <;> rw [h] <;> rfl
  · rcases h with h | h | h <;>
      (show Except.ok (dGet ckvs "ref",
          pyOr ((dGet ckvs "name").getD Json.null) (.str "Unknown")) =
          Except.ok (dGet ckvs "ref", .str "Unknown")
       rw [h]
       rfl)

/-- Witness for C10: a null tickets value, a false categories value, a
ticket without styleOptions, and a category with a null name. -/
theorem claim_C10_witness :
    (build_inventory (mkNd [("tickets", .null)]) =
       build_inventory (mkNd [("tickets", .arr [])])) ∧
    (build_inventory (mkNd [("categories", .bool false)]) =
       build_inventory (mkNd [("categories", .arr [])])) ∧
    hiddenOf [("name", .str "A")] = .ok false ∧
    catEntry (.obj [("ref", .str "r"), ("name", .null)]) =
      .ok (dGet ([("ref", Json.str "r"), ("name", Json.null)] :
        List (String × Json)) "ref", .str "Unknown") :=
  ⟨claim_C10.1 [] .null (by decide),
   claim_C10.2.1 [] (.bool false) (by decide),
   claim_C10.2.2.1 [("name", .str "A")] (Or.inl (by decide)),
   claim_C10.2.2.2 [("ref", .str "r"), ("name", .null)]
     (Or.inr (Or.inl (by decide)))⟩

theorem tr_name_field (r : TicketRecord) :
    dGet r.kvs "name" = r.name.map Json.str := by
  unfold TicketRecord.kvs
  cases r.name <;> cases r.active <;> cases r.v <;> cases r.categoryRef <;>
    cases r.hiddenInSelectionArea <;> simp [dGet]

theorem tr_active_field (r : TicketRecord) :
    dGet r.kvs "active" = r.active.map Json.bool := by
  unfold TicketRecord.kvs
  cases r.name <;> cases r.active <;> cases r.v <;> cases r.categoryRef <;>
    cases r.hiddenInSelectionArea <;> simp [dGet]

theorem tr_v_field (r : TicketRecord) :
    dGet r.kvs "v" = r.v.map Json.int := by
  unfold TicketRecord.kvs
  cases r.name <;> cases r.active <;> cases r.v <;> cases r.categoryRef <;>
    cases r.hiddenInSelectionArea <;> simp [dGet]

theorem tr_style_field (r : TicketRecord) :
    dGet r.kvs "styleOptions" = r.hiddenInSelectionArea.map
      (fun b => Json.obj [("hiddenInSelectionArea", Json.bool b)]) := by
  unfold TicketRecord.kvs
  cases r.name <;> cases r.active <;> cases r.v <;> cases r.categoryRef <;>
    cases r.hiddenInSelectionArea <;> simp [dGet]

theorem tr_nameOf (r : TicketRecord) :
    nameOf r.kvs = .ok (pyStrip (r.name.getD "")) := by
  unfold nameOf
  rw [tr_name_field]
  cases hn : r.name with
  | none => rfl
  | some s =>
      by_cases hs : s = ""
      · subst hs
        rfl
      · have ht : truthy (.str s) = true := by simp [truthy, hs]
        simp [pyOr, ht]

theorem tr_stockOf (r : TicketRecord) : stockOf r.kvs = .ok (r.v.getD 0) := by
  unfold stockOf
  rw [tr_v_field]
  cases hv : r.v with
  | none => rfl
  | some n =>
      by_cases hn : n = 0
      · subst hn
        rfl
      · have ht : truthy (.int n) = true := by simp [truthy, hn]
        simp [pyOr, ht, pyInt]

theorem tr_hiddenOf (r : TicketRecord) :
    hiddenOf r.kvs = .ok (r.hiddenInSelectionArea.getD false) := by
  unfold hiddenOf
  rw [tr_style_field]
  cases hh : r.hiddenInSelectionArea with
  | none => rfl
  | some b => rfl

theorem tr_active (r : TicketRecord) :
    truthy ((dGet r.kvs "active").getD .null) = r.active.getD false := by
  rw [tr_active_field]
  cases r.active with
  | none => rfl
  | some b => rfl

/-- Claim C1: a ticket record (shaped as the spec's data model, section 3)
yields a row if and only if its stripped name is non-empty, the uppercased
name contains neither "SPECTATOR" nor "RELAY", `active` equals true, its
stock is strictly positive, and `hiddenInSelectionArea` is not true. -/
theorem claim_C1 (cm : CatMap) (r : TicketRecord) :
    (∃ row, processTicket cm r.toJson = .ok (some row)) ↔
      (pyStrip (r.name.getD "") ≠ "" ∧
       containsSub "SPECTATOR" (pyUpper (pyStrip (r.name.getD ""))) = false ∧
       containsSub "RELAY" (pyUpper (pyStrip (r.name.getD ""))) = false ∧
       r.active = some true ∧
       0 < r.v.getD 0 ∧
       r.hiddenInSelectionArea ≠ some true) := by
  unfold TicketRecord.toJson
  simp only [processTicket, tr_nameOf, tr_stockOf, tr_hiddenOf, tr_active]
  by_cases h1 : pyStrip (r.name.getD "") = ""
  · simp [h1]
  · by_cases h2 : containsSub "SPECTATOR" (pyUpper (pyStrip (r.name.getD ""))) = true
    · simp [h1, h2, EXCLUDE_KEYWORDS]
    · by_cases h3 : containsSub "RELAY" (pyUpper (pyStrip (r.name.getD ""))) = true
      · simp [h1, h2, h3, EXCLUDE_KEYWORDS]
      · cases ha : r.active with
        | none => simp [h1, h2, h3, EXCLUDE_KEYWORDS, ha]
        | some ab =>
          cases ab with
          | false => simp [h1, h2, h3, EXCLUDE_KEYWORDS, ha]
          | true =>
            cases hh : r.hiddenInSelectionArea with
            | none =>
                by_cases h4 : 0 < r.v.getD 0 <;>
                  simp [h1, h2, h3, h4, EXCLUDE_KEYWORDS, ha, hh]
            | some hb =>
              cases hb with
              | false =>
                  by_cases h4 : 0 < r.v.getD 0 <;>
                    simp [h1, h2, h3, h4, EXCLUDE_KEYWORDS, ha, hh]
              | true => simp [h1, h2, h3, EXCLUDE_KEYWORDS, ha, hh]

/-- Witness for C1: a record satisfying all five conditions yields a row,
by the right-to-left direction of the equivalence at a concrete record. -/
theorem claim_C1_witness :
    ∃ row, processTicket []
      (TicketRecord.toJson ⟨some "Open", some true, some 3, none, none⟩) =
      .ok (some row) :=
  (claim_C1 [] ⟨some "Open", some true, some 3, none, none⟩).mpr
    (by refine ⟨by decide, by decide, by decide, rfl, by decide, by decide⟩)
